import Mathlib

/-!
Verification of the synthetic-project generation and file-tree persistence
logic of the app-forge web application.

The definitions below are a shallow embedding of the TypeScript handlers in
`src/server/src/handlers/` together with the table shapes of
`src/server/src/db/schema.ts`.  The relational store is modelled as explicit
lists of rows threaded through each handler; `serial` ids are modelled by a
next-id counter; `created_at` / `updated_at` timestamps are omitted because no
property below depends on real time.  JavaScript string operations
(`toLowerCase`, regex `replace`, `includes`, template literals) are modelled
character-exactly for the ASCII inputs the handlers manipulate, and SQL `LIKE`
is modelled with its real wildcard semantics (`%` and `_`).
-/

/- ### JavaScript string primitives -/

/-- Model of JavaScript `String.prototype.toLowerCase` (ASCII-exact; the
handlers only ever compare ASCII keywords and slug characters). -/
def jsToLower (s : String) : String :=
  String.mk (s.data.map Char.toLower)

/-- Characters matched by the JavaScript regex class `\s` (ASCII part;
unicode spaces do not occur in the properties checked here). -/
def isJsSpace (c : Char) : Bool :=
  c == ' ' || c == '\t' || c == '\n' || c == '\r' || c == '\x0b' || c == '\x0c'

/-- Lower-case letter or digit, the regex class `[a-z0-9]`. -/
def isLowerAlnum (c : Char) : Bool :=
  ('a' ≤ c && c ≤ 'z') || ('0' ≤ c && c ≤ '9')

/-- Helper for `replaceRuns`: the boolean records whether the previous
character was part of a run being replaced. -/
def replaceRunsAux (p : Char → Bool) (r : Char) : List Char → Bool → List Char
  | [], _ => []
  | c :: cs, inRun =>
    if p c then
      if inRun then replaceRunsAux p r cs true
      else r :: replaceRunsAux p r cs true
    else c :: replaceRunsAux p r cs false

/-- Model of the JavaScript global regex replace `s.replace(/X+/g, r)`:
every maximal run of characters satisfying `p` becomes the single
character `r`. -/
def replaceRuns (p : Char → Bool) (r : Char) (l : List Char) : List Char :=
  replaceRunsAux p r l false

/-- Model of `s.replace(/^-|-$/g, '')`: the regex removes one leading and one
trailing hyphen (each alternative matches a single character). -/
def trimEdgeHyphens (l : List Char) : List Char :=
  let l1 := if l.head? == some '-' then l.tail else l
  if l1.getLast? == some '-' then l1.dropLast else l1

/-- Decimal rendering of a natural number, digit characters of `n`,
little-endian. Models the JavaScript template splice of a counter. -/
def decDigitChar : Nat → Char
  | 0 => '0'
  | 1 => '1'
  | 2 => '2'
  | 3 => '3'
  | 4 => '4'
  | 5 => '5'
  | 6 => '6'
  | 7 => '7'
  | 8 => '8'
  | 9 => '9'
  | _ => '*'

/-- Little-endian decimal digit characters of `n` (empty for 0), with
explicit fuel so that the definition is structurally recursive; `n` itself is
always enough fuel because `n / 10 < n` for positive `n`. -/
def natDecimalDigitsRevFuel : Nat → Nat → List Char
  | 0, _ => []
  | fuel + 1, n =>
    if n = 0 then []
    else decDigitChar (n % 10) :: natDecimalDigitsRevFuel fuel (n / 10)

/-- Little-endian list of decimal digit characters of `n` (empty for 0). -/
def natDecimalDigitsRev (n : Nat) : List Char :=
  natDecimalDigitsRevFuel n n

/-- Decimal rendering of a natural number, as JavaScript `${n}` renders it. -/
def natToDecimalString (n : Nat) : String :=
  if n = 0 then "0" else String.mk (natDecimalDigitsRev n).reverse

example : natToDecimalString 0 = "0" := by decide
example : natToDecimalString 7 = "7" := by decide
example : natToDecimalString 105 = "105" := by decide

/-- `isPrefixList pat l` is true iff `pat` is a prefix of `l`. -/
def isPrefixList : List Char → List Char → Bool
  | [], _ => true
  | _ :: _, [] => false
  | c :: cs, d :: ds => c == d && isPrefixList cs ds

/-- Substring occurrence on character lists: haystack first, needle second. -/
def containsSub : List Char → List Char → Bool
  | [], pat => isPrefixList pat []
  | c :: s, pat => isPrefixList pat (c :: s) || containsSub s pat

/-- Model of JavaScript `haystack.includes(needle)`. -/
def strIncludes (s pat : String) : Bool :=
  containsSub s.data pat.data

/-- Model of JavaScript `s.endsWith(t)`. -/
def strEndsWith (s t : String) : Bool :=
  isPrefixList t.data.reverse s.data.reverse

example : strIncludes "a full stack app" "full stack" = true := rfl
example : strIncludes "frontend" "front" = true := rfl
example : strIncludes "front" "frontend" = false := rfl

/- ### SQL LIKE (used by delete_file.ts through the `like` helper of drizzle)

`%` matches any sequence of characters and `_` matches exactly one
character; all other pattern characters match themselves.  The handler
interpolates the folder path into the pattern without escaping, so wildcard
characters inside a stored path keep their wildcard meaning. -/

/-- SQL `LIKE` matching, pattern first, subject second, with explicit fuel so
that the definition is structurally recursive.  Every recursive call shrinks
`pattern.length + s.length`, so fuel `pattern.length + s.length + 1` (used by
`sqlLike`) always suffices. -/
def sqlLikeMatchFuel : Nat → List Char → List Char → Bool
  | 0, _, _ => false
  | fuel + 1, pattern, s =>
    match pattern, s with
    | [], s => s.isEmpty
    | '%' :: ps, [] => sqlLikeMatchFuel fuel ps []
    | '%' :: ps, c :: cs =>
      sqlLikeMatchFuel fuel ps (c :: cs) || sqlLikeMatchFuel fuel ('%' :: ps) cs
    | '_' :: _, [] => false
    | '_' :: ps, _ :: cs => sqlLikeMatchFuel fuel ps cs
    | _ :: _, [] => false
    | p :: ps, c :: cs => p == c && sqlLikeMatchFuel fuel ps cs

/-- `column LIKE pattern` on strings. -/
def sqlLike (pattern s : String) : Bool :=
  sqlLikeMatchFuel (pattern.data.length + s.data.length + 1) pattern.data s.data

example : sqlLike "/src/%" "/src/App.tsx" = true := by decide
example : sqlLike "/src/%" "/src2/App.tsx" = false := by decide
example : sqlLike "/a_/%" "/ab/x" = true := by decide

/- ### Path utility (simulate_ai_generation.ts, getParentPath) -/

/-- Split a character list at a separator character, JavaScript
`String.prototype.split` style: `"".split(sep)` is `[""]`, separators at the
edges produce empty segments. -/
def splitCharList (sep : Char) : List Char → List (List Char)
  | [] => [[]]
  | c :: cs =>
    let r := splitCharList sep cs
    if c == sep then [] :: r
    else
      match r with
      | h :: t => (c :: h) :: t
      | [] => [[c]]

/-- JavaScript `parts.join('/')`. -/
def joinWithSlash : List String → String
  | [] => ""
  | [x] => x
  | x :: xs => x ++ "/" ++ joinWithSlash xs

/-- `getParentPath` from simulate_ai_generation.ts: split on `/`, drop empty
segments, `null` when at most one segment remains, else re-join all but the
last segment behind a leading `/`. -/
def getParentPath (filePath : String) : Option String :=
  let parts := ((splitCharList '/' filePath.data).map String.mk).filter (fun part => part ≠ "")
  if parts.length ≤ 1 then none
  else some ("/" ++ joinWithSlash parts.dropLast)

example : getParentPath "/src/App.tsx" = some "/src" := by decide
example : getParentPath "/src" = none := by decide
example : getParentPath "/frontend/src/App.js" = some "/frontend/src" := by decide

/- ### Slug pipelines -/

/-- Base slug computed by create_project.ts from the project name:
lower-case, whitespace runs to `-`, characters outside `[a-z0-9-]` to `-`,
hyphen runs collapsed, one leading and one trailing hyphen stripped. -/
def generateBaseSlug (name : String) : String :=
  let step1 := (jsToLower name).data
  let step2 := replaceRuns isJsSpace '-' step1
  let step3 := step2.map (fun c => if isLowerAlnum c || c == '-' then c else '-')
  let step4 := replaceRuns (fun c => c == '-') '-' step3
  String.mk (trimEdgeHyphens step4)

example : generateBaseSlug "My Awesome App" = "my-awesome-app" := rfl
example : generateBaseSlug "A B  C!!" = "a-b-c" := rfl
example : generateBaseSlug "!!!" = "" := rfl

/-- Slug recomputed by update_project.ts when a new name is supplied:
lower-case, runs of characters outside `[a-z0-9]` to a single `-`, one
leading and one trailing hyphen stripped.  (A different pipeline from
`generateBaseSlug`, and with no uniqueness loop.) -/
def recomputeSlugOnRename (name : String) : String :=
  let step1 := (jsToLower name).data
  let step2 := replaceRuns (fun c => !(isLowerAlnum c)) '-' step1
  String.mk (trimEdgeHyphens step2)

example : recomputeSlugOnRename "My Awesome Project!!!" = "my-awesome-project" := rfl
example : recomputeSlugOnRename "@@@Start and End@@@" = "start-and-end" := rfl

/-- `sanitizeProjectName` from simulate_ai_generation.ts: lower-case, remove
every character outside `[a-z0-9\s-]` (whitespace and hyphens are kept),
replace whitespace runs with `-`, collapse hyphen runs, strip one leading and
one trailing hyphen. -/
def sanitizeProjectName (projectName : String) : String :=
  let step1 := (jsToLower projectName).data
  let step2 := step1.filter (fun c => isLowerAlnum c || isJsSpace c || c == '-')
  let step3 := replaceRuns isJsSpace '-' step2
  let step4 := replaceRuns (fun c => c == '-') '-' step3
  String.mk (trimEdgeHyphens step4)

example : sanitizeProjectName "My App" = "my-app" := rfl
example : sanitizeProjectName "My App!!!" = "my-app" := rfl

/- ### Template synthesizer (simulate_ai_generation.ts)

One record per synthesized file or folder, exactly the object shape returned
by the generator functions.  File contents are transcribed verbatim from the
template literals of the source (braces, quotes and backticks escaped for
Lean); the project-name splices are kept as explicit appends. -/

structure GenFile where
  path : String
  name : String
  content : String
  is_folder : Bool
deriving Repr, DecidableEq

/-- `generateReactProject` from simulate_ai_generation.ts. -/
def generateReactProject (projectName : String) : List GenFile :=
  [ { path := "/src", name := "src", content := "", is_folder := true },
    { path := "/public", name := "public", content := "", is_folder := true },
    { path := "/package.json", name := "package.json",
      content := "\x7b\n  \"name\": \"" ++ sanitizeProjectName projectName ++ "\",\n  \"version\": \"1.0.0\",\n  \"private\": true,\n  \"dependencies\": \x7b\n    \"react\": \"^18.2.0\",\n    \"react-dom\": \"^18.2.0\",\n    \"typescript\": \"^4.9.5\"\n  \x7d,\n  \"scripts\": \x7b\n    \"start\": \"react-scripts start\",\n    \"build\": \"react-scripts build\"\n  \x7d\n\x7d",
      is_folder := false },
    { path := "/src/App.tsx", name := "App.tsx",
      content := "import React from \x27react\x27;\nimport \x27./App.css\x27;\n\nfunction App() \x7b\n  return (\n    <div className=\"App\">\n      <header className=\"App-header\">\n        <h1>Welcome to " ++ projectName ++ "</h1>\n        <p>Your React application is ready!</p>\n      </header>\n    </div>\n  );\n\x7d\n\nexport default App;",
      is_folder := false },
    { path := "/src/index.tsx", name := "index.tsx",
      content := "import React from \x27react\x27;\nimport ReactDOM from \x27react-dom/client\x27;\nimport App from \x27./App\x27;\n\nconst root = ReactDOM.createRoot(\n  document.getElementById(\x27root\x27) as HTMLElement\n);\n\nroot.render(\n  <React.StrictMode>\n    <App />\n  </React.StrictMode>\n);",
      is_folder := false },
    { path := "/src/App.css", name := "App.css",
      content := ".App \x7b\n  text-align: center;\n\x7d\n\n.App-header \x7b\n  background-color: #282c34;\n  padding: 20px;\n  color: white;\n  min-height: 50vh;\n  display: flex;\n  flex-direction: column;\n  align-items: center;\n  justify-content: center;\n\x7d",
      is_folder := false },
    { path := "/public/index.html", name := "index.html",
      content := "<!DOCTYPE html>\n<html lang=\"en\">\n<head>\n    <meta charset=\"utf-8\" />\n    <meta name=\"viewport\" content=\"width=device-width, initial-scale=1\" />\n    <title>" ++ projectName ++ "</title>\n</head>\n<body>\n    <div id=\"root\"></div>\n</body>\n</html>",
      is_folder := false } ]

/-- `generateAPIProject` from simulate_ai_generation.ts. -/
def generateAPIProject (projectName : String) : List GenFile :=
  [ { path := "/src", name := "src", content := "", is_folder := true },
    { path := "/package.json", name := "package.json",
      content := "\x7b\n  \"name\": \"" ++ sanitizeProjectName projectName ++ "\",\n  \"version\": \"1.0.0\",\n  \"main\": \"src/server.js\",\n  \"dependencies\": \x7b\n    \"express\": \"^4.18.2\",\n    \"cors\": \"^2.8.5\"\n  \x7d,\n  \"scripts\": \x7b\n    \"start\": \"node src/server.js\",\n    \"dev\": \"nodemon src/server.js\"\n  \x7d\n\x7d",
      is_folder := false },
    { path := "/src/server.js", name := "server.js",
      content := "const express = require(\x27express\x27);\nconst cors = require(\x27cors\x27);\n\nconst app = express();\nconst PORT = process.env.PORT || 3000;\n\n// Middleware\napp.use(cors());\napp.use(express.json());\n\n// Routes\napp.get(\x27/\x27, (req, res) => \x7b\n    res.json(\x7b message: \x27Welcome to " ++ projectName ++ " API\x27 \x7d);\n\x7d);\n\napp.get(\x27/api/health\x27, (req, res) => \x7b\n    res.json(\x7b status: \x27OK\x27, timestamp: new Date().toISOString() \x7d);\n\x7d);\n\napp.listen(PORT, () => \x7b\n    console.log(\x60" ++ projectName ++ " API server running on port $\x7bPORT\x7d\x60);\n\x7d);",
      is_folder := false },
    { path := "/README.md", name := "README.md",
      content := "# " ++ projectName ++ "\n\nA Node.js API server built with Express.\n\n## Getting Started\n\n1. Install dependencies:\n   \x60\x60\x60\n   npm install\n   \x60\x60\x60\n\n2. Start the server:\n   \x60\x60\x60\n   npm start\n   \x60\x60\x60\n\n## Endpoints\n\n- \x60GET /\x60 - Welcome message\n- \x60GET /api/health\x60 - Health check",
      is_folder := false } ]

/-- `generateFullStackProject` from simulate_ai_generation.ts. -/
def generateFullStackProject (projectName : String) : List GenFile :=
  [ { path := "/frontend", name := "frontend", content := "", is_folder := true },
    { path := "/backend", name := "backend", content := "", is_folder := true },
    { path := "/package.json", name := "package.json",
      content := "\x7b\n  \"name\": \"" ++ sanitizeProjectName projectName ++ "\",\n  \"version\": \"1.0.0\",\n  \"private\": true,\n  \"workspaces\": [\n    \"frontend\",\n    \"backend\"\n  ],\n  \"scripts\": \x7b\n    \"dev\": \"concurrently \\\"npm run dev --workspace=backend\\\" \\\"npm run dev --workspace=frontend\\\"\",\n    \"build\": \"npm run build --workspace=frontend && npm run build --workspace=backend\"\n  \x7d,\n  \"devDependencies\": \x7b\n    \"concurrently\": \"^7.6.0\"\n  \x7d\n\x7d",
      is_folder := false },
    { path := "/frontend/package.json", name := "package.json",
      content := "\x7b\n  \"name\": \"" ++ sanitizeProjectName projectName ++ "-frontend\",\n  \"version\": \"1.0.0\",\n  \"dependencies\": \x7b\n    \"react\": \"^18.2.0\",\n    \"react-dom\": \"^18.2.0\",\n    \"axios\": \"^1.3.0\"\n  \x7d,\n  \"scripts\": \x7b\n    \"start\": \"react-scripts start\",\n    \"build\": \"react-scripts build\",\n    \"dev\": \"react-scripts start\"\n  \x7d\n\x7d",
      is_folder := false },
    { path := "/backend/package.json", name := "package.json",
      content := "\x7b\n  \"name\": \"" ++ sanitizeProjectName projectName ++ "-backend\",\n  \"version\": \"1.0.0\",\n  \"main\": \"server.js\",\n  \"dependencies\": \x7b\n    \"express\": \"^4.18.2\",\n    \"cors\": \"^2.8.5\"\n  \x7d,\n  \"scripts\": \x7b\n    \"start\": \"node server.js\",\n    \"dev\": \"nodemon server.js\"\n  \x7d\n\x7d",
      is_folder := false },
    { path := "/frontend/src", name := "src", content := "", is_folder := true },
    { path := "/frontend/src/App.js", name := "App.js",
      content := "import React, \x7b useState, useEffect \x7d from \x27react\x27;\nimport axios from \x27axios\x27;\n\nfunction App() \x7b\n  const [message, setMessage] = useState(\x27\x27);\n\n  useEffect(() => \x7b\n    axios.get(\x27http://localhost:3001/\x27)\n      .then(response => setMessage(response.data.message))\n      .catch(error => console.error(\x27Error:\x27, error));\n  \x7d, []);\n\n  return (\n    <div className=\"App\">\n      <h1>" ++ projectName ++ "</h1>\n      <p>Backend message: \x7bmessage\x7d</p>\n    </div>\n  );\n\x7d\n\nexport default App;",
      is_folder := false },
    { path := "/backend/server.js", name := "server.js",
      content := "const express = require(\x27express\x27);\nconst cors = require(\x27cors\x27);\n\nconst app = express();\nconst PORT = process.env.PORT || 3001;\n\napp.use(cors());\napp.use(express.json());\n\napp.get(\x27/\x27, (req, res) => \x7b\n    res.json(\x7b message: \x27Hello from " ++ projectName ++ " backend!\x27 \x7d);\n\x7d);\n\napp.listen(PORT, () => \x7b\n    console.log(\x60Backend server running on port $\x7bPORT\x7d\x60);\n\x7d);",
      is_folder := false } ]

/-- `generateBasicProject` from simulate_ai_generation.ts. -/
def generateBasicProject (projectName : String) : List GenFile :=
  [ { path := "/README.md", name := "README.md",
      content := "# " ++ projectName ++ "\n\nA basic project generated from your AI prompt.\n\n## Getting Started\n\nThis project structure has been created based on your requirements. Add your specific implementation details here.",
      is_folder := false },
    { path := "/src", name := "src", content := "", is_folder := true },
    { path := "/src/index.js", name := "index.js",
      content := "// " ++ projectName ++ "\n// Generated from AI prompt\n\nconsole.log(\x27Hello from " ++ projectName ++ "!\x27);\n\n// Add your implementation here",
      is_folder := false },
    { path := "/package.json", name := "package.json",
      content := "\x7b\n  \"name\": \"" ++ sanitizeProjectName projectName ++ "\",\n  \"version\": \"1.0.0\",\n  \"main\": \"src/index.js\",\n  \"scripts\": \x7b\n    \"start\": \"node src/index.js\"\n  \x7d\n\x7d",
      is_folder := false } ]

/- ### Prompt classifier (simulate_ai_generation.ts, generateFilesFromPrompt)

The source function branches directly on the keyword tests and calls one of
the four generators; the branch structure is factored here into an archetype
value plus a dispatch, with conditions transcribed verbatim. -/

inductive ProjectType where
  | fullStack
  | api
  | frontend
  | basic
deriving Repr, DecidableEq

/-- The keyword branch of `generateFilesFromPrompt`: lower-case the prompt
once, then test substrings in the order used by the source (full-stack first, then
backend keywords, then frontend keywords). -/
def classifyPrompt (aiPrompt : String) : ProjectType :=
  let promptLower := jsToLower aiPrompt
  if strIncludes promptLower "full stack" || strIncludes promptLower "fullstack" then
    ProjectType.fullStack
  else if strIncludes promptLower "api" || strIncludes promptLower "backend" ||
      strIncludes promptLower "server" || strIncludes promptLower "express" ||
      strIncludes promptLower "node.js" then
    ProjectType.api
  else if strIncludes promptLower "react" || strIncludes promptLower "frontend" ||
      strIncludes promptLower "ui" then
    ProjectType.frontend
  else
    ProjectType.basic

/-- Dispatch of `generateFilesFromPrompt` to the generator of the archetype. -/
def generateForType : ProjectType → String → List GenFile
  | ProjectType.fullStack, projectName => generateFullStackProject projectName
  | ProjectType.api, projectName => generateAPIProject projectName
  | ProjectType.frontend, projectName => generateReactProject projectName
  | ProjectType.basic, projectName => generateBasicProject projectName

/-- `generateFilesFromPrompt` from simulate_ai_generation.ts. -/
def generateFilesFromPrompt (aiPrompt projectName : String) : List GenFile :=
  generateForType (classifyPrompt aiPrompt) projectName

/- ### Table rows (db/schema.ts)

Row shapes follow the drizzle table declarations; `serial` primary keys are
`Nat`, nullable text columns are `Option String`, timestamps are omitted. -/

structure UserRow where
  id : Nat
  email : String
  password_hash : String
  name : String
deriving Repr, DecidableEq

structure ProjectRow where
  id : Nat
  user_id : Nat
  name : String
  description : Option String
  ai_prompt : String
  slug : String
  is_deployed : Bool
  deployment_url : Option String
deriving Repr, DecidableEq

structure FileRow where
  id : Nat
  project_id : Nat
  path : String
  name : String
  content : String
  is_folder : Bool
  parent_path : Option String
deriving Repr, DecidableEq

structure ChatMessageRow where
  id : Nat
  project_id : Nat
  user_id : Nat
  message : String
  response : Option String
  is_ai_response : Bool
deriving Repr, DecidableEq

inductive DeploymentStatus where
  | pending
  | building
  | deployed
  | failed
deriving Repr, DecidableEq

structure DeploymentRow where
  id : Nat
  project_id : Nat
  status : DeploymentStatus
  deployment_url : Option String
  build_logs : Option String
deriving Repr, DecidableEq

/-- The database: one list per table, plus counters for the `serial` ids the
handlers never choose themselves. -/
structure DBState where
  users : List UserRow
  projects : List ProjectRow
  files : List FileRow
  chatMessages : List ChatMessageRow
  deployments : List DeploymentRow
  nextProjectId : Nat
  nextFileId : Nat
deriving Repr, DecidableEq

/- ### delete_file.ts -/

/-- `deleteFile(fileId, projectId)`: select the node by id and project; if it
is a folder, first delete every row of the project whose `path` matches the
SQL pattern `folderPath + '%'` (where `folderPath` is the path of the folder with a
trailing `/` appended unless already present — and any `%` or `_` inside the
stored path stays a wildcard, since the source interpolates it unescaped);
then delete the row by id and report whether that final delete removed a row.
Only the `files` table is touched, so the handler is modelled on it. -/
def deleteFile (fileId projectId : Nat) (files : List FileRow) : Bool × List FileRow :=
  let matching := files.filter (fun f => f.id == fileId && f.project_id == projectId)
  match matching with
  | [] => (false, files)
  | file :: _ =>
    let files1 :=
      if file.is_folder then
        let folderPath := if strEndsWith file.path "/" then file.path else file.path ++ "/"
        files.filter (fun f => !(f.project_id == projectId && sqlLike (folderPath ++ "%") f.path))
      else files
    let files2 := files1.filter (fun f => !(f.id == fileId && f.project_id == projectId))
    (files1.any (fun f => f.id == fileId && f.project_id == projectId), files2)

/- ### create_file.ts -/

structure CreateFileInput where
  project_id : Nat
  path : String
  name : String
  content : String
  is_folder : Bool
  parent_path : Option String
deriving Repr, DecidableEq

/-- The row inserted by `createFile`: exactly the fields of the input plus a fresh
id; no validation of `parent_path` happens anywhere in the handler. -/
def mkFileRow (id : Nat) (input : CreateFileInput) : FileRow :=
  { id := id
    project_id := input.project_id
    path := input.path
    name := input.name
    content := input.content
    is_folder := input.is_folder
    parent_path := input.parent_path }

/-- `createFile(input)`: error if the referenced project does not exist,
otherwise insert the row and return it. -/
def createFile (input : CreateFileInput) (s : DBState) : Except String FileRow × DBState :=
  if (s.projects.filter (fun p => p.id == input.project_id)).isEmpty then
    (Except.error ("Project with id " ++ natToDecimalString input.project_id ++ " not found"), s)
  else
    (Except.ok (mkFileRow s.nextFileId input),
     { s with files := s.files ++ [mkFileRow s.nextFileId input], nextFileId := s.nextFileId + 1 })

/- ### create_project.ts -/

structure CreateProjectInput where
  user_id : Nat
  name : String
  description : Option String
  ai_prompt : String
deriving Repr, DecidableEq

/-- The row `select ... where slug = s` is non-empty, i.e. the slug is taken. -/
def slugTaken (taken : List String) (s : String) : Bool :=
  !(taken.filter (fun t => t == s)).isEmpty

/-- The candidate that the uniqueness loop of the source tries at step `k`: the base
slug itself first, then `base-1`, `base-2`, … (the `${baseSlug}-${counter}`
template of create_project.ts). -/
def slugCandidate (base : String) : Nat → String
  | 0 => base
  | k + 1 => base ++ "-" ++ natToDecimalString (k + 1)

/-- The `while (true)` slug-uniqueness loop of the source, with explicit fuel: try
candidate `k`; if taken, move to `k+1`.  The loop always terminates against a
finite table because the candidates are pairwise distinct, so the fuel
`taken.length + 1` used by `generateUniqueSlug` suffices. -/
def findFreeSlug (taken : List String) (base : String) : Nat → Nat → Option String
  | 0, _ => none
  | fuel + 1, k =>
    if slugTaken taken (slugCandidate base k) then findFreeSlug taken base fuel (k + 1)
    else some (slugCandidate base k)

/-- The whole uniqueness loop of create_project.ts over the existing slugs. -/
def generateUniqueSlug (taken : List String) (base : String) : Option String :=
  findFreeSlug taken base (taken.length + 1) 0

/-- `createProject(input)`: error if the user does not exist (checked first,
before any slug work and before any insert); otherwise derive the base slug
from the name, run the uniqueness loop against the stored slugs, and insert
the new row with `is_deployed = false` and `deployment_url = null`. -/
def createProject (input : CreateProjectInput) (s : DBState) : Except String ProjectRow × DBState :=
  if (s.users.filter (fun u => u.id == input.user_id)).isEmpty then
    (Except.error ("User with ID " ++ natToDecimalString input.user_id ++ " does not exist"), s)
  else
    match generateUniqueSlug (s.projects.map (fun p => p.slug)) (generateBaseSlug input.name) with
    | none => (Except.error "slug loop exhausted", s)
    | some slug =>
      let row : ProjectRow :=
        { id := s.nextProjectId
          user_id := input.user_id
          name := input.name
          description := input.description
          ai_prompt := input.ai_prompt
          slug := slug
          is_deployed := false
          deployment_url := none }
      (Except.ok row, { s with projects := s.projects ++ [row], nextProjectId := s.nextProjectId + 1 })

/-- `n` sequential `createProject` calls with the same input. -/
def createProjectsN (input : CreateProjectInput) : Nat → DBState → DBState
  | 0, s => s
  | n + 1, s => (createProject input (createProjectsN input n s)).2

/- ### update_project.ts -/

/-- Partial-update input: outer `Option` is "field present in the input",
inner `Option` (for the nullable columns) is "value or explicit null". -/
structure UpdateProjectInput where
  id : Nat
  name : Option String := none
  description : Option (Option String) := none
  ai_prompt : Option String := none
  is_deployed : Option Bool := none
  deployment_url : Option (Option String) := none
deriving Repr, DecidableEq

/-- The `updateData` object of update_project.ts applied to a row: each
provided field overwrites the column; a provided `name` also overwrites the
slug with `recomputeSlugOnRename name` — with no uniqueness check. -/
def applyProjectUpdate (input : UpdateProjectInput) (p : ProjectRow) : ProjectRow :=
  let p1 := match input.name with
    | some n => { p with name := n, slug := recomputeSlugOnRename n }
    | none => p
  let p2 := match input.description with
    | some d => { p1 with description := d }
    | none => p1
  let p3 := match input.ai_prompt with
    | some a => { p2 with ai_prompt := a }
    | none => p2
  let p4 := match input.is_deployed with
    | some b => { p3 with is_deployed := b }
    | none => p3
  match input.deployment_url with
  | some u => { p4 with deployment_url := u }
  | none => p4

/-- The project table after the `db.update ... where id = input.id`: the
matching row gets the `updateData` fields, every other row is untouched. -/
def updatedProjects (input : UpdateProjectInput) (ps : List ProjectRow) : List ProjectRow :=
  ps.map (fun p => if p.id == input.id then applyProjectUpdate input p else p)

/-- `updateProject(input)`: error if the project id does not exist; otherwise
apply the partial update to the matching row.  The `projects.slug` column
carries a UNIQUE constraint (db/schema.ts line 21), so the store rejects an
update whose new slug duplicates the slug of another row; the handler does not
catch that error, it propagates with the table unchanged. -/
def updateProject (input : UpdateProjectInput) (s : DBState) : Except String ProjectRow × DBState :=
  if (s.projects.filter (fun p => p.id == input.id)).isEmpty then
    (Except.error ("Project with id " ++ natToDecimalString input.id ++ " not found"), s)
  else
    if ((updatedProjects input s.projects).map (fun p => p.slug)).Nodup then
      match (updatedProjects input s.projects).filter (fun p => p.id == input.id) with
      | r :: _ => (Except.ok r, { s with projects := updatedProjects input s.projects })
      | [] => (Except.error "updated row not found", s)
    else
      (Except.error "duplicate key value violates unique constraint projects_slug_unique", s)

/- ### delete_project.ts (handler provided among the unnamed sources) -/

/-- `deleteProject(projectId, userId)`: select by id and owner; if nothing
matches return `false` and change nothing; otherwise delete the row (the
`ON DELETE CASCADE` clauses of the store remove the files, chat messages
and deployments) and report whether a row was deleted. -/
def deleteProject (projectId userId : Nat) (s : DBState) : Bool × DBState :=
  if (s.projects.filter (fun p => p.id == projectId && p.user_id == userId)).isEmpty then
    (false, s)
  else
    (s.projects.any (fun p => p.id == projectId && p.user_id == userId),
     { s with
        projects := s.projects.filter (fun p => !(p.id == projectId && p.user_id == userId))
        files := s.files.filter (fun f => !(f.project_id == projectId))
        chatMessages := s.chatMessages.filter (fun m => !(m.project_id == projectId))
        deployments := s.deployments.filter (fun d => !(d.project_id == projectId)) })

/- ### simulate_ai_generation.ts (orchestrator) -/

/-- The insert loop of `simulateAIGeneration`: each generated record becomes a
`files` row for the project, with `parent_path` computed by `getParentPath`,
in the order the generator emits. -/
def insertGenerated (projectId : Nat) : List GenFile → DBState → DBState
  | [], s => s
  | f :: fs, s =>
    let row : FileRow :=
      { id := s.nextFileId
        project_id := projectId
        path := f.path
        name := f.name
        content := f.content
        is_folder := f.is_folder
        parent_path := getParentPath f.path }
    insertGenerated projectId fs { s with files := s.files ++ [row], nextFileId := s.nextFileId + 1 }

/-- `simulateAIGeneration(projectId)`: load the project (error if absent),
generate the synthetic records from its stored prompt and name, insert them
all, and return the project together with the in-memory generated list. -/
def simulateAIGeneration (projectId : Nat) (s : DBState) :
    Except String (ProjectRow × List GenFile) × DBState :=
  match s.projects.filter (fun p => p.id == projectId) with
  | [] => (Except.error ("Project with id " ++ natToDecimalString projectId ++ " not found"), s)
  | project :: _ =>
    let generatedFiles := generateFilesFromPrompt project.ai_prompt project.name
    (Except.ok (project, generatedFiles), insertGenerated projectId generatedFiles s)

/- ### Demonstration fixtures -/

/-- A user row used by the concrete stores below. -/
def demoUser : UserRow :=
  { id := 1, email := "u@example.com", password_hash := "h", name := "U" }

/- ### Claim C1: folder deletion and the unescaped LIKE pattern -/

def c1TargetFolder : FileRow :=
  { id := 1, project_id := 1, path := "/a_", name := "a_", content := "",
    is_folder := true, parent_path := none }

def c1OtherFolder : FileRow :=
  { id := 2, project_id := 1, path := "/ab", name := "ab", content := "",
    is_folder := true, parent_path := none }

def c1OtherFile : FileRow :=
  { id := 3, project_id := 1, path := "/ab/x", name := "x", content := "",
    is_folder := false, parent_path := some "/ab" }

def c1Files : List FileRow := [c1TargetFolder, c1OtherFolder, c1OtherFile]

/-- C1: deleting the folder `/a_` (a path containing the LIKE wildcard `_`)
also deletes `/ab/x`, a node of a different subtree, because delete_file.ts
interpolates the folder path into the SQL LIKE pattern unescaped.  `/ab/x`
does not start with `/a_` + `/`, so by the claim it should survive; only
`/ab` (whose path is too short for the pattern) is left. -/
theorem c1_like_wildcard_failing_input :
    (deleteFile 1 1 c1Files).2 = [c1OtherFolder] ∧
    (deleteFile 1 1 c1Files).1 = true ∧
    isPrefixList ("/a_" ++ "/").data c1OtherFile.path.data = false := by decide

/- ### Claim C6: fully-stripped names produce an empty slug -/

/-- Decidable form of the regular expression `^[a-z0-9]+(-[a-z0-9]+)*$`:
non-empty, and every hyphen-separated group is a non-empty run of
lower-case alphanumerics. -/
def matchesSlugPattern (s : String) : Bool :=
  !s.data.isEmpty && (splitCharList '-' s.data).all (fun g => !g.isEmpty && g.all isLowerAlnum)

example : matchesSlugPattern "a-b-c" = true := by decide
example : matchesSlugPattern "a--b" = false := by decide
example : matchesSlugPattern "-a" = false := by decide

def c6State : DBState :=
  { users := [demoUser], projects := [], files := [], chatMessages := [],
    deployments := [], nextProjectId := 1, nextFileId := 1 }

def c6Input : CreateProjectInput :=
  { user_id := 1, name := "!!!", description := none, ai_prompt := "anything" }

/-- C6: the name `"!!!"` consists only of characters outside `[a-z0-9]`; the
base-slug pipeline of create_project.ts reduces it to the empty string, there
is no fallback constant anywhere in the handler, and the project really is
created with slug `""` (which matches neither the slug pattern nor any
non-empty fallback). -/
theorem c6_empty_slug_failing_input :
    generateBaseSlug "!!!" = "" ∧
    matchesSlugPattern "" = false ∧
    ((createProject c6Input c6State).2.projects.map (fun p => p.slug)) = [""] := by decide

/- ### Claim C7: delete with the wrong owner is a no-op returning false -/

/-- C7: when no project row matches both the id and the owner id,
`deleteProject` returns `false` and the whole database — the project table
and every dependent table — is exactly as before. -/
theorem c7_delete_wrong_owner_noop (pid uid : Nat) (s : DBState)
    (h : ∀ p ∈ s.projects, ¬(p.id = pid ∧ p.user_id = uid)) :
    deleteProject pid uid s = (false, s) := by
  have hf : s.projects.filter (fun p => p.id == pid && p.user_id == uid) = [] := by
    rw [List.filter_eq_nil_iff]
    intro p hp
    simpa using h p hp
  unfold deleteProject
  rw [hf]
  rfl

def c7File : FileRow :=
  { id := 1, project_id := 1, path := "/readme.md", name := "readme.md",
    content := "hi", is_folder := false, parent_path := none }

def c7Project : ProjectRow :=
  { id := 1, user_id := 1, name := "P", description := none, ai_prompt := "x",
    slug := "p", is_deployed := false, deployment_url := none }

def c7State : DBState :=
  { users := [demoUser], projects := [c7Project], files := [c7File],
    chatMessages := [{ id := 1, project_id := 1, user_id := 1, message := "hi",
                       response := none, is_ai_response := false }],
    deployments := [{ id := 1, project_id := 1, status := DeploymentStatus.pending,
                      deployment_url := none, build_logs := none }],
    nextProjectId := 2, nextFileId := 2 }

theorem c7_witness : deleteProject 1 2 c7State = (false, c7State) :=
  c7_delete_wrong_owner_noop 1 2 c7State (by decide)

/- ### Claim C10: createProject rejects a missing owner before any write -/

/-- C10: when no stored user carries the requested `user_id`, `createProject`
returns the user-not-found error and the database is exactly as before — in
particular no slug was claimed and no project row was inserted. -/
theorem c10_missing_user_rejected (input : CreateProjectInput) (s : DBState)
    (h : ∀ u ∈ s.users, u.id ≠ input.user_id) :
    createProject input s =
      (Except.error ("User with ID " ++ natToDecimalString input.user_id ++ " does not exist"), s) := by
  have hf : s.users.filter (fun u => u.id == input.user_id) = [] := by
    rw [List.filter_eq_nil_iff]
    intro u hu
    simpa using h u hu
  unfold createProject
  rw [hf]
  rfl

def c10Input : CreateProjectInput :=
  { user_id := 5, name := "New Project", description := some "d", ai_prompt := "a react app" }

theorem c10_witness :
    createProject c10Input c7State = (Except.error "User with ID 5 does not exist", c7State) :=
  (c10_missing_user_rejected c10Input c7State (by decide)).trans (by rfl)

/- ### Claim C8: createFile does not enforce the parent_path invariant -/

def c8State : DBState :=
  { users := [demoUser], projects := [c7Project], files := [], chatMessages := [],
    deployments := [], nextProjectId := 2, nextFileId := 1 }

def c8Input : CreateFileInput :=
  { project_id := 1, path := "/docs/readme.md", name := "readme.md",
    content := "hello", is_folder := false, parent_path := some "/docs" }

/-- C8 counterexample: the project exists but holds no folder at all, yet
`createFile` succeeds and stores a node whose `parent_path` is `"/docs"` —
a parent path that names no folder node of the project, violating the tree
invariant the claim says is preserved. -/
theorem c8_dangling_parent_counterexample :
    (createFile c8Input c8State).1 = Except.ok (mkFileRow 1 c8Input) ∧
    ((createFile c8Input c8State).2.files.map (fun f => f.parent_path)) = [some "/docs"] ∧
    ((createFile c8Input c8State).2.files.filter (fun f => f.is_folder && f.path == "/docs")) = [] := by
  refine ⟨rfl, by decide, by decide⟩

/-- C8 (amended): `createFile` checks only that the referenced project
exists; whenever it does, the call succeeds and appends exactly the row built
from the input — whatever its `parent_path` — so the handler performs no
`parent_path` validation at all. -/
theorem c8_create_no_parent_check (input : CreateFileInput) (s : DBState)
    (h : (s.projects.filter (fun p => p.id == input.project_id)).isEmpty = false) :
    createFile input s =
      (Except.ok (mkFileRow s.nextFileId input),
       { s with files := s.files ++ [mkFileRow s.nextFileId input],
                nextFileId := s.nextFileId + 1 }) := by
  unfold createFile
  rw [h]
  rfl

theorem c8_witness :
    createFile c8Input c8State =
      (Except.ok (mkFileRow 1 c8Input),
       { c8State with files := [mkFileRow 1 c8Input], nextFileId := 2 }) :=
  (c8_create_no_parent_check c8Input c8State (by decide)).trans (by rfl)

/- ### Claim C5: slug uniqueness at rename -/

def c5Alpha : ProjectRow :=
  { id := 1, user_id := 1, name := "alpha", description := none, ai_prompt := "x",
    slug := "alpha", is_deployed := false, deployment_url := none }

def c5Beta : ProjectRow :=
  { id := 2, user_id := 1, name := "beta", description := none, ai_prompt := "y",
    slug := "beta", is_deployed := false, deployment_url := none }

def c5State : DBState :=
  { users := [demoUser], projects := [c5Alpha, c5Beta], files := [], chatMessages := [],
    deployments := [], nextProjectId := 3, nextFileId := 1 }

def c5Input : UpdateProjectInput := { id := 2, name := some "Alpha" }

/-- C5 counterexample: renaming project 2 to `"Alpha"` recomputes the slug
`"alpha"`, which is exactly the slug of the other project 1 — update_project.ts
contains no collision check, so the recomputed slug does collide; the attempt
dies on the unique constraint of the store instead of resolving the collision. -/
theorem c5_rename_collision_counterexample :
    recomputeSlugOnRename "Alpha" = "alpha" ∧
    c5Alpha.slug = "alpha" ∧
    (updateProject c5Input c5State).1 =
      Except.error "duplicate key value violates unique constraint projects_slug_unique" ∧
    (updateProject c5Input c5State).2 = c5State := by
  refine ⟨by decide, by decide, by rfl, by decide⟩

/-- C5 (amended): `updateProject` never checks the recomputed slug against
other projects, but the unique constraint of the store rejects a colliding rename
with an error and leaves the table unchanged, so the global invariant that
slugs are pairwise distinct is still preserved by every `updateProject`
call. -/
theorem c5_slug_unique_preserved (input : UpdateProjectInput) (s : DBState)
    (h : ((s.projects.map (fun p => p.slug))).Nodup) :
    (((updateProject input s).2.projects.map (fun p => p.slug))).Nodup := by
  unfold updateProject
  split_ifs with h1 h2
  · exact h
  · split
    · simpa using h2
    · exact h
  · exact h

theorem c5_witness :
    (((updateProject c5Input c5State).2.projects.map (fun p => p.slug))).Nodup :=
  c5_slug_unique_preserved c5Input c5State (by decide)

/- ### Claim C3: classifier priority -/

/-- The full-stack condition of the claim: case-insensitive substring search. -/
def hasFullStackKeyword (prompt : String) : Bool :=
  strIncludes (jsToLower prompt) "full stack" || strIncludes (jsToLower prompt) "fullstack"

/-- The backend condition of the claim: `api`, `backend`, `server`, or an explicit
backend-framework keyword (`express`, `node.js`). -/
def hasBackendKeyword (prompt : String) : Bool :=
  strIncludes (jsToLower prompt) "api" || strIncludes (jsToLower prompt) "backend" ||
  strIncludes (jsToLower prompt) "server" || strIncludes (jsToLower prompt) "express" ||
  strIncludes (jsToLower prompt) "node.js"

/-- The frontend condition of the claim: `react`, `frontend`, or `ui`. -/
def hasFrontendKeyword (prompt : String) : Bool :=
  strIncludes (jsToLower prompt) "react" || strIncludes (jsToLower prompt) "frontend" ||
  strIncludes (jsToLower prompt) "ui"

/-- C3: the classifier decides by the first matching rule in the fixed
priority order full-stack, backend, frontend, basic over case-insensitive
substring search — in particular a full-stack prompt wins even when backend
or frontend keywords are also present, and a backend keyword beats a
frontend keyword. -/
theorem c3_classifier_priority (p : String) :
    (hasFullStackKeyword p = true → classifyPrompt p = ProjectType.fullStack) ∧
    (hasFullStackKeyword p = false → hasBackendKeyword p = true →
      classifyPrompt p = ProjectType.api) ∧
    (hasFullStackKeyword p = false → hasBackendKeyword p = false →
      hasFrontendKeyword p = true → classifyPrompt p = ProjectType.frontend) ∧
    (hasFullStackKeyword p = false → hasBackendKeyword p = false →
      hasFrontendKeyword p = false → classifyPrompt p = ProjectType.basic) := by
  unfold hasFullStackKeyword hasBackendKeyword hasFrontendKeyword classifyPrompt
  refine ⟨fun h1 => ?_, fun h1 h2 => ?_, fun h1 h2 h3 => ?_, fun h1 h2 h3 => ?_⟩ <;>
    simp_all

theorem c3_witness :
    classifyPrompt "Build a full stack app with React" = ProjectType.fullStack ∧
    classifyPrompt "Build a backend with React" = ProjectType.api :=
  ⟨(c3_classifier_priority "Build a full stack app with React").1 (by decide),
   (c3_classifier_priority "Build a backend with React").2.1 (by decide) (by decide)⟩

/- ### Claim C2: generated trees are parent-consistent -/

/-- The path and folder flag of every generated record, in order. -/
def genPathFolders (files : List GenFile) : List (String × Bool) :=
  files.map (fun f => (f.path, f.is_folder))

/-- Executable check of the tree-consistency property on the projected
path/folder list. -/
def treeConsistentCheck (pf : List (String × Bool)) : Bool :=
  pf.all (fun x =>
    match getParentPath x.1 with
    | none => true
    | some pp => pf.any (fun y => y.2 && y.1 == pp))

/-- Tree consistency of a generated list: every record whose computed parent
path is non-null has a folder record with exactly that path in the list. -/
def treeConsistent (files : List GenFile) : Prop :=
  ∀ f ∈ files, ∀ pp, getParentPath f.path = some pp →
    ∃ g, g ∈ files ∧ g.is_folder = true ∧ g.path = pp

theorem treeConsistent_of_check (files : List GenFile)
    (h : treeConsistentCheck (genPathFolders files) = true) : treeConsistent files := by
  intro f hf pp hpp
  have hx := List.all_eq_true.mp h (f.path, f.is_folder) (List.mem_map_of_mem _ hf)
  simp only at hx
  rw [hpp] at hx
  obtain ⟨y, hy, hyb⟩ := List.any_eq_true.mp hx
  obtain ⟨g, hg, hgy⟩ := List.mem_map.mp hy
  rw [Bool.and_eq_true] at hyb
  obtain ⟨hy2, hy1⟩ := hyb
  refine ⟨g, hg, ?_, ?_⟩
  · rw [← hgy] at hy2; exact hy2
  · rw [← hgy] at hy1; exact eq_of_beq hy1

theorem genPathFolders_react (n : String) :
    genPathFolders (generateReactProject n) =
      [("/src", true), ("/public", true), ("/package.json", false), ("/src/App.tsx", false),
       ("/src/index.tsx", false), ("/src/App.css", false), ("/public/index.html", false)] := rfl

theorem genPathFolders_api (n : String) :
    genPathFolders (generateAPIProject n) =
      [("/src", true), ("/package.json", false), ("/src/server.js", false),
       ("/README.md", false)] := rfl

theorem genPathFolders_fullStack (n : String) :
    genPathFolders (generateFullStackProject n) =
      [("/frontend", true), ("/backend", true), ("/package.json", false),
       ("/frontend/package.json", false), ("/backend/package.json", false),
       ("/frontend/src", true), ("/frontend/src/App.js", false),
       ("/backend/server.js", false)] := rfl

theorem genPathFolders_basic (n : String) :
    genPathFolders (generateBasicProject n) =
      [("/README.md", false), ("/src", true), ("/src/index.js", false),
       ("/package.json", false)] := rfl

theorem generateFilesFromPrompt_treeConsistent (prompt name : String) :
    treeConsistent (generateFilesFromPrompt prompt name) := by
  unfold generateFilesFromPrompt
  cases classifyPrompt prompt with
  | fullStack =>
    exact treeConsistent_of_check _ (by rw [show genPathFolders (generateForType ProjectType.fullStack name) = _ from genPathFolders_fullStack name]; decide)
  | api =>
    exact treeConsistent_of_check _ (by rw [show genPathFolders (generateForType ProjectType.api name) = _ from genPathFolders_api name]; decide)
  | frontend =>
    exact treeConsistent_of_check _ (by rw [show genPathFolders (generateForType ProjectType.frontend name) = _ from genPathFolders_react name]; decide)
  | basic =>
    exact treeConsistent_of_check _ (by rw [show genPathFolders (generateForType ProjectType.basic name) = _ from genPathFolders_basic name]; decide)

/-- C2: whenever `simulateAIGeneration` succeeds, the returned generated list
is tree-consistent — every returned record with a non-null computed parent
path has a folder record with that exact path in the same returned list,
for every project name and every prompt (hence for all four archetypes). -/
theorem c2_generated_tree_consistent (s : DBState) (pid : Nat) (proj : ProjectRow)
    (gens : List GenFile) (s2 : DBState)
    (h : simulateAIGeneration pid s = (Except.ok (proj, gens), s2)) :
    treeConsistent gens := by
  unfold simulateAIGeneration at h
  cases hm : s.projects.filter (fun p => p.id == pid) with
  | nil => rw [hm] at h; simp at h
  | cons p rest =>
    rw [hm] at h
    simp only [Prod.mk.injEq, Except.ok.injEq] at h
    obtain ⟨⟨hp, hg⟩, hs⟩ := h
    rw [← hg]
    exact generateFilesFromPrompt_treeConsistent _ _

def c2Project : ProjectRow :=
  { id := 1, user_id := 1, name := "Demo", description := none,
    ai_prompt := "Make something nice", slug := "demo", is_deployed := false,
    deployment_url := none }

def c2State : DBState :=
  { users := [demoUser], projects := [c2Project], files := [], chatMessages := [],
    deployments := [], nextProjectId := 2, nextFileId := 1 }

def c2Gens : List GenFile := generateFilesFromPrompt "Make something nice" "Demo"

def c2IndexJs : GenFile :=
  (generateBasicProject "Demo").getD 2 { path := "", name := "", content := "", is_folder := false }

theorem c2_witness : ∃ g, g ∈ c2Gens ∧ g.is_folder = true ∧ g.path = "/src" :=
  c2_generated_tree_consistent c2State 1 c2Project c2Gens (insertGenerated 1 c2Gens c2State) rfl
    c2IndexJs (by decide) "/src" (by decide)

/- ### Claim C9: the manifest identifier embedded in package.json -/

/-- The transformation exactly as the claim words it: lower-case, strip all
characters outside `[a-z0-9-]` (so whitespace is removed rather than mapped
to hyphens), collapse repeated hyphens, trim leading/trailing hyphens. -/
def claimedManifestTransform (name : String) : String :=
  let step1 := (jsToLower name).data
  let step2 := step1.filter (fun c => isLowerAlnum c || c == '-')
  let step3 := replaceRuns (fun c => c == '-') '-' step2
  String.mk (trimEdgeHyphens step3)

/-- The transformation as amended: lower-case, remove characters outside
`[a-z0-9]`, whitespace and hyphen, replace whitespace runs with a single
hyphen, collapse repeated hyphens, trim leading/trailing hyphens —
whitespace maps to hyphens instead of disappearing. -/
def amendedManifestTransform (name : String) : String :=
  let step1 := (jsToLower name).data
  let step2 := step1.filter (fun c => isLowerAlnum c || isJsSpace c || c == '-')
  let step3 := replaceRuns isJsSpace '-' step2
  let step4 := replaceRuns (fun c => c == '-') '-' step3
  String.mk (trimEdgeHyphens step4)

/-- C9 counterexample: for the project name `"my app"` the source
sanitization yields `"my-app"` (whitespace becomes a hyphen) while the
transformation of the claim yields `"myapp"` (whitespace removed); the generated
`/package.json` content embeds `"my-app"`, not `"myapp"`. -/
theorem c9_whitespace_counterexample :
    sanitizeProjectName "my app" = "my-app" ∧
    claimedManifestTransform "my app" = "myapp" ∧
    (generateBasicProject "my app").any
      (fun f => f.path == "/package.json" && strIncludes f.content "\"name\": \"my-app\"") = true ∧
    (generateBasicProject "my app").all
      (fun f => !(f.path == "/package.json" && strIncludes f.content "\"name\": \"myapp\"")) = true := by
  decide

theorem isPrefixList_append (l t : List Char) : isPrefixList l (l ++ t) = true := by
  induction l with
  | nil => rfl
  | cons c cs ih => simp [isPrefixList, ih]

theorem containsSub_of_suffix (pre rest pat : List Char) (h : isPrefixList pat rest = true) :
    containsSub (pre ++ rest) pat = true := by
  induction pre with
  | nil =>
    cases rest with
    | nil => simpa [containsSub] using h
    | cons c cs => simp [containsSub, h]
  | cons c cs ih => simp [containsSub, ih]

/-- A string built around a middle part contains that middle part. -/
theorem strIncludes_parts (a q1 x q2 b : String) :
    strIncludes (((a ++ q1) ++ x) ++ (q2 ++ b)) ((q1 ++ x) ++ q2) = true := by
  unfold strIncludes
  simp only [String.data_append]
  have h1 : ((a.data ++ q1.data) ++ x.data) ++ (q2.data ++ b.data)
      = a.data ++ (((q1.data ++ x.data) ++ q2.data) ++ b.data) := by
    simp [List.append_assoc]
  rw [h1]
  exact containsSub_of_suffix _ _ _ (isPrefixList_append _ _)

/-- C9 (amended): the manifest identifier is the project name lower-cased,
with characters outside `[a-z0-9]`, whitespace and hyphen removed, whitespace
runs replaced by a single hyphen, hyphen runs collapsed and edge hyphens
trimmed; this identifier is embedded as the `"name"` value of every generated
record at path `/package.json`, for every archetype. -/
theorem c9_manifest_identifier_amended :
    (∀ name, sanitizeProjectName name = amendedManifestTransform name) ∧
    (∀ name t, ∀ f ∈ generateForType t name, f.path = "/package.json" →
      strIncludes f.content ("\"name\": \"" ++ sanitizeProjectName name ++ "\"") = true) := by
  constructor
  · intro name; rfl
  · intro name t f hf hpath
    cases t with
    | fullStack =>
      simp only [generateForType, generateFullStackProject, List.mem_cons,
        List.not_mem_nil, or_false] at hf
      rcases hf with rfl | rfl | rfl | rfl | rfl | rfl | rfl | rfl
      · dsimp only at hpath; exact absurd hpath (by decide)
      · dsimp only at hpath; exact absurd hpath (by decide)
      · show strIncludes (("\x7b\n  \"name\": \"" ++ sanitizeProjectName name) ++ _) _ = true
        rw [show ("\x7b\n  \"name\": \"" : String) = "\x7b\n  " ++ "\"name\": \"" from rfl,
          show ("\",\n  \"version\": \"1.0.0\",\n  \"private\": true,\n  \"workspaces\": [\n    \"frontend\",\n    \"backend\"\n  ],\n  \"scripts\": \x7b\n    \"dev\": \"concurrently \\\"npm run dev --workspace=backend\\\" \\\"npm run dev --workspace=frontend\\\"\",\n    \"build\": \"npm run build --workspace=frontend && npm run build --workspace=backend\"\n  \x7d,\n  \"devDependencies\": \x7b\n    \"concurrently\": \"^7.6.0\"\n  \x7d\n\x7d" : String)
            = "\"" ++ ",\n  \"version\": \"1.0.0\",\n  \"private\": true,\n  \"workspaces\": [\n    \"frontend\",\n    \"backend\"\n  ],\n  \"scripts\": \x7b\n    \"dev\": \"concurrently \\\"npm run dev --workspace=backend\\\" \\\"npm run dev --workspace=frontend\\\"\",\n    \"build\": \"npm run build --workspace=frontend && npm run build --workspace=backend\"\n  \x7d,\n  \"devDependencies\": \x7b\n    \"concurrently\": \"^7.6.0\"\n  \x7d\n\x7d" from rfl]
        exact strIncludes_parts _ _ _ _ _
      · dsimp only at hpath; exact absurd hpath (by decide)
      · dsimp only at hpath; exact absurd hpath (by decide)
      · dsimp only at hpath; exact absurd hpath (by decide)
      · dsimp only at hpath; exact absurd hpath (by decide)
      · dsimp only at hpath; exact absurd hpath (by decide)
    | api =>
      simp only [generateForType, generateAPIProject, List.mem_cons,
        List.not_mem_nil, or_false] at hf
      rcases hf with rfl | rfl | rfl | rfl
      · dsimp only at hpath; exact absurd hpath (by decide)
      · show strIncludes (("\x7b\n  \"name\": \"" ++ sanitizeProjectName name) ++ _) _ = true
        rw [show ("\x7b\n  \"name\": \"" : String) = "\x7b\n  " ++ "\"name\": \"" from rfl,
          show ("\",\n  \"version\": \"1.0.0\",\n  \"main\": \"src/server.js\",\n  \"dependencies\": \x7b\n    \"express\": \"^4.18.2\",\n    \"cors\": \"^2.8.5\"\n  \x7d,\n  \"scripts\": \x7b\n    \"start\": \"node src/server.js\",\n    \"dev\": \"nodemon src/server.js\"\n  \x7d\n\x7d" : String)
            = "\"" ++ ",\n  \"version\": \"1.0.0\",\n  \"main\": \"src/server.js\",\n  \"dependencies\": \x7b\n    \"express\": \"^4.18.2\",\n    \"cors\": \"^2.8.5\"\n  \x7d,\n  \"scripts\": \x7b\n    \"start\": \"node src/server.js\",\n    \"dev\": \"nodemon src/server.js\"\n  \x7d\n\x7d" from rfl]
        exact strIncludes_parts _ _ _ _ _
      · dsimp only at hpath; exact absurd hpath (by decide)
      · dsimp only at hpath; exact absurd hpath (by decide)
    | frontend =>
      simp only [generateForType, generateReactProject, List.mem_cons,
        List.not_mem_nil, or_false] at hf
      rcases hf with rfl | rfl | rfl | rfl | rfl | rfl | rfl
      · dsimp only at hpath; exact absurd hpath (by decide)
      · dsimp only at hpath; exact absurd hpath (by decide)
      · show strIncludes (("\x7b\n  \"name\": \"" ++ sanitizeProjectName name) ++ _) _ = true
        rw [show ("\x7b\n  \"name\": \"" : String) = "\x7b\n  " ++ "\"name\": \"" from rfl,
          show ("\",\n  \"version\": \"1.0.0\",\n  \"private\": true,\n  \"dependencies\": \x7b\n    \"react\": \"^18.2.0\",\n    \"react-dom\": \"^18.2.0\",\n    \"typescript\": \"^4.9.5\"\n  \x7d,\n  \"scripts\": \x7b\n    \"start\": \"react-scripts start\",\n    \"build\": \"react-scripts build\"\n  \x7d\n\x7d" : String)
            = "\"" ++ ",\n  \"version\": \"1.0.0\",\n  \"private\": true,\n  \"dependencies\": \x7b\n    \"react\": \"^18.2.0\",\n    \"react-dom\": \"^18.2.0\",\n    \"typescript\": \"^4.9.5\"\n  \x7d,\n  \"scripts\": \x7b\n    \"start\": \"react-scripts start\",\n    \"build\": \"react-scripts build\"\n  \x7d\n\x7d" from rfl]
        exact strIncludes_parts _ _ _ _ _
      · dsimp only at hpath; exact absurd hpath (by decide)
      · dsimp only at hpath; exact absurd hpath (by decide)
      · dsimp only at hpath; exact absurd hpath (by decide)
      · dsimp only at hpath; exact absurd hpath (by decide)
    | basic =>
      simp only [generateForType, generateBasicProject, List.mem_cons,
        List.not_mem_nil, or_false] at hf
      rcases hf with rfl | rfl | rfl | rfl
      · dsimp only at hpath; exact absurd hpath (by decide)
      · dsimp only at hpath; exact absurd hpath (by decide)
      · dsimp only at hpath; exact absurd hpath (by decide)
      · show strIncludes (("\x7b\n  \"name\": \"" ++ sanitizeProjectName name) ++ _) _ = true
        rw [show ("\x7b\n  \"name\": \"" : String) = "\x7b\n  " ++ "\"name\": \"" from rfl,
          show ("\",\n  \"version\": \"1.0.0\",\n  \"main\": \"src/index.js\",\n  \"scripts\": \x7b\n    \"start\": \"node src/index.js\"\n  \x7d\n\x7d" : String)
            = "\"" ++ ",\n  \"version\": \"1.0.0\",\n  \"main\": \"src/index.js\",\n  \"scripts\": \x7b\n    \"start\": \"node src/index.js\"\n  \x7d\n\x7d" from rfl]
        exact strIncludes_parts _ _ _ _ _

def c9PackageJson : GenFile :=
  (generateBasicProject "my app").getD 3 { path := "", name := "", content := "", is_folder := false }

theorem c9_witness :
    sanitizeProjectName "my app" = amendedManifestTransform "my app" ∧
    strIncludes c9PackageJson.content
      ("\"name\": \"" ++ sanitizeProjectName "my app" ++ "\"") = true :=
  ⟨c9_manifest_identifier_amended.1 "my app",
   c9_manifest_identifier_amended.2 "my app" ProjectType.basic c9PackageJson
     (by decide) (by decide)⟩

/- ### Claim C4: the uniqueness loop takes the first free candidate -/

/-- Value of a little-endian decimal digit-character list. -/
def decValRev : List Char → Nat
  | [] => 0
  | c :: cs => (c.toNat - 48) + 10 * decValRev cs

theorem decDigitChar_toNat (d : Nat) (h : d < 10) : (decDigitChar d).toNat - 48 = d := by
  interval_cases d <;> decide

theorem decValRev_digits (fuel : Nat) : ∀ n, n ≤ fuel →
    decValRev (natDecimalDigitsRevFuel fuel n) = n := by
  induction fuel with
  | zero =>
    intro n h
    have : n = 0 := Nat.le_zero.mp h
    subst this
    rfl
  | succ fuel ih =>
    intro n h
    by_cases hz : n = 0
    · subst hz; rfl
    · have hdiv : n / 10 < n := Nat.div_lt_self (Nat.pos_of_ne_zero hz) (by omega)
      have hfuel : n / 10 ≤ fuel := by omega
      show decValRev (natDecimalDigitsRevFuel (fuel + 1) n) = n
      unfold natDecimalDigitsRevFuel
      rw [if_neg hz]
      show (decDigitChar (n % 10)).toNat - 48 + 10 * decValRev (natDecimalDigitsRevFuel fuel (n / 10)) = n
      rw [decDigitChar_toNat (n % 10) (Nat.mod_lt n (by omega)), ih (n / 10) hfuel]
      exact Nat.mod_add_div n 10

theorem decValRev_natToDecimalString (n : Nat) :
    decValRev (natToDecimalString n).data.reverse = n := by
  unfold natToDecimalString
  by_cases h : n = 0
  · subst h; decide
  · rw [if_neg h]
    show decValRev (natDecimalDigitsRev n).reverse.reverse = n
    rw [List.reverse_reverse]
    exact decValRev_digits n n le_rfl

theorem natToDecimalString_inj (m n : Nat)
    (h : natToDecimalString m = natToDecimalString n) : m = n := by
  have hv := congrArg (fun s => decValRev s.data.reverse) h
  dsimp only at hv
  rwa [decValRev_natToDecimalString, decValRev_natToDecimalString] at hv

theorem string_append_right_inj (a b c : String) (h : a ++ b = a ++ c) : b = c := by
  have hd : a.data ++ b.data = a.data ++ c.data := by
    have h1 := congrArg String.data h
    simpa [String.data_append] using h1
  have hbc : b.data = c.data := List.append_cancel_left hd
  cases b; cases c
  exact congrArg String.mk (by simpa using hbc)

theorem slugCandidate_inj (base : String) (j k : Nat)
    (h : slugCandidate base j = slugCandidate base k) : j = k := by
  match j, k with
  | 0, 0 => rfl
  | 0, k + 1 =>
    exfalso
    have hl := congrArg String.length h
    simp only [slugCandidate, String.length_append] at hl
    have : ("-" : String).length = 1 := rfl
    omega
  | j + 1, 0 =>
    exfalso
    have hl := congrArg String.length h
    simp only [slugCandidate, String.length_append] at hl
    have : ("-" : String).length = 1 := rfl
    omega
  | j + 1, k + 1 =>
    have h2 : (base ++ "-") ++ natToDecimalString (j + 1) = (base ++ "-") ++ natToDecimalString (k + 1) := by
      simpa [slugCandidate, String.append_assoc] using h
    have h3 := string_append_right_inj _ _ _ h2
    exact natToDecimalString_inj _ _ h3

theorem slugTaken_iff_mem (taken : List String) (s : String) :
    slugTaken taken s = true ↔ s ∈ taken := by
  unfold slugTaken
  rw [Bool.not_eq_true']
  constructor
  · intro h
    have hne : taken.filter (fun t => t == s) ≠ [] := by
      intro hnil
      rw [hnil] at h
      simp at h
    obtain ⟨a, ha⟩ := List.exists_mem_of_ne_nil _ hne
    obtain ⟨hmem, hbeq⟩ := List.mem_filter.mp ha
    rwa [show a = s from eq_of_beq hbeq] at hmem
  · intro h
    have hmem : s ∈ taken.filter (fun t => t == s) := List.mem_filter.mpr ⟨h, by simp⟩
    cases hf : taken.filter (fun t => t == s) with
    | nil => rw [hf] at hmem; cases hmem
    | cons a t => rfl

theorem findFreeSlug_none (taken : List String) (base : String) :
    ∀ fuel k, findFreeSlug taken base fuel k = none →
      ∀ i, k ≤ i → i < k + fuel → slugTaken taken (slugCandidate base i) = true := by
  intro fuel
  induction fuel with
  | zero => intro k _ i h1 h2; omega
  | succ fuel ih =>
    intro k h i h1 h2
    unfold findFreeSlug at h
    by_cases ht : slugTaken taken (slugCandidate base k) = true
    · rw [if_pos ht] at h
      rcases Nat.eq_or_lt_of_le h1 with rfl | hlt
      · exact ht
      · exact ih (k + 1) h i hlt (by omega)
    · rw [if_neg ht] at h
      exact absurd h (by simp)

theorem findFreeSlug_some (taken : List String) (base : String) :
    ∀ fuel k s, findFreeSlug taken base fuel k = some s →
      ∃ j, k ≤ j ∧ s = slugCandidate base j ∧
        slugTaken taken (slugCandidate base j) = false ∧
        ∀ i, k ≤ i → i < j → slugTaken taken (slugCandidate base i) = true := by
  intro fuel
  induction fuel with
  | zero => intro k s h; exact absurd h (by simp [findFreeSlug])
  | succ fuel ih =>
    intro k s h
    unfold findFreeSlug at h
    by_cases ht : slugTaken taken (slugCandidate base k) = true
    · rw [if_pos ht] at h
      obtain ⟨j, hj1, hj2, hj3, hj4⟩ := ih (k + 1) s h
      refine ⟨j, by omega, hj2, hj3, ?_⟩
      intro i hi1 hi2
      rcases Nat.eq_or_lt_of_le hi1 with rfl | hlt
      · exact ht
      · exact hj4 i hlt hi2
    · rw [if_neg ht] at h
      refine ⟨k, le_rfl, by simpa using h.symm, by simpa using ht, ?_⟩
      intro i hi1 hi2; omega

theorem findFreeSlug_hits (taken : List String) (base : String) (n : Nat) :
    ∀ fuel k, k ≤ n → n < k + fuel →
      slugTaken taken (slugCandidate base n) = false →
      (∀ i, k ≤ i → i < n → slugTaken taken (slugCandidate base i) = true) →
      findFreeSlug taken base fuel k = some (slugCandidate base n) := by
  intro fuel
  induction fuel with
  | zero => intro k h1 h2; omega
  | succ fuel ih =>
    intro k h1 h2 hfree htaken
    unfold findFreeSlug
    rcases Nat.eq_or_lt_of_le h1 with rfl | hlt
    · rw [if_neg (by simp [hfree])]
    · rw [if_pos (htaken k le_rfl hlt)]
      exact ih (k + 1) hlt (by omega) hfree (fun i hi1 hi2 => htaken i (by omega) hi2)

/-- The loop always finds a slug within the fuel `taken.length + 1`: the
candidates are pairwise distinct, so a finite table cannot hold them all
(this is why the `while (true)` loop of the source terminates). -/
theorem generateUniqueSlug_total (taken : List String) (base : String) :
    ∃ s, generateUniqueSlug taken base = some s := by
  unfold generateUniqueSlug
  cases hf : findFreeSlug taken base (taken.length + 1) 0 with
  | some s => exact ⟨s, rfl⟩
  | none =>
    exfalso
    have hall := findFreeSlug_none taken base _ 0 hf
    have hsub : (List.range (taken.length + 1)).map (slugCandidate base) ⊆ taken := by
      intro x hx
      obtain ⟨i, hi, rfl⟩ := List.mem_map.mp hx
      exact (slugTaken_iff_mem _ _).mp
        (hall i (Nat.zero_le i) (by simpa using List.mem_range.mp hi))
    have hnd : ((List.range (taken.length + 1)).map (slugCandidate base)).Nodup :=
      (List.nodup_range _).map (fun a b hab => slugCandidate_inj _ a b hab)
    have hle := (List.subperm_of_subset hnd hsub).length_le
    simp only [List.length_map, List.length_range] at hle
    omega

/-- C4: (first part) the uniqueness loop of create_project.ts always returns
a slug, and that slug is the first candidate in the sequence `base`,
`base-1`, `base-2`, … not already taken; (second part) starting from a store
whose slugs contain none of the candidates, `n` sequential `createProject`
calls with the same name produce exactly the slugs `base`, `base-1`, …,
`base-(n-1)`, in order, all pairwise distinct (no suffix reused). -/
theorem c4_first_free_slug_and_sequence (input : CreateProjectInput) (s0 : DBState)
    (hu : (s0.users.filter (fun u => u.id == input.user_id)).isEmpty = false)
    (hfree : ∀ k, slugTaken (s0.projects.map (fun p => p.slug))
        (slugCandidate (generateBaseSlug input.name) k) = false) :
    (∀ taken base, ∃ k, generateUniqueSlug taken base = some (slugCandidate base k) ∧
      slugTaken taken (slugCandidate base k) = false ∧
        ∀ j, j < k → slugTaken taken (slugCandidate base j) = true) ∧
    ∀ n, (createProjectsN input n s0).projects.map (fun p => p.slug)
        = s0.projects.map (fun p => p.slug)
          ++ (List.range n).map (slugCandidate (generateBaseSlug input.name)) ∧
      ((List.range n).map (slugCandidate (generateBaseSlug input.name))).Nodup := by
  constructor
  · intro taken base
    obtain ⟨s, hs⟩ := generateUniqueSlug_total taken base
    obtain ⟨j, _, hj2, hj3, hj4⟩ := findFreeSlug_some taken base _ 0 s hs
    exact ⟨j, hj2 ▸ hs, hj3, fun i hi => hj4 i (Nat.zero_le i) hi⟩
  · have main : ∀ n, (createProjectsN input n s0).users = s0.users ∧
        (createProjectsN input n s0).projects.map (fun p => p.slug)
          = s0.projects.map (fun p => p.slug)
            ++ (List.range n).map (slugCandidate (generateBaseSlug input.name)) := by
      intro n
      induction n with
      | zero => exact ⟨rfl, by simp [createProjectsN]⟩
      | succ n ih =>
        obtain ⟨ihu, ihs⟩ := ih
        have hu2 : ((createProjectsN input n s0).users.filter
            (fun u => u.id == input.user_id)).isEmpty = false := by
          rw [ihu]; exact hu
        have hnotmem : slugTaken ((createProjectsN input n s0).projects.map (fun p => p.slug))
            (slugCandidate (generateBaseSlug input.name) n) = false := by
          rw [ihs]
          rw [Bool.eq_false_iff]
          intro hc
          have hmem := (slugTaken_iff_mem _ _).mp hc
          rcases List.mem_append.mp hmem with hmo | hmc
          · have := (slugTaken_iff_mem _ _).mpr hmo
            rw [hfree n] at this
            cases this
          · obtain ⟨j, hj, hje⟩ := List.mem_map.mp hmc
            have := slugCandidate_inj _ _ _ hje
            subst this
            exact absurd (List.mem_range.mp hj) (by omega)
        have htakenbelow : ∀ i, 0 ≤ i → i < n →
            slugTaken ((createProjectsN input n s0).projects.map (fun p => p.slug))
              (slugCandidate (generateBaseSlug input.name) i) = true := by
          intro i _ hi
          rw [ihs]
          exact (slugTaken_iff_mem _ _).mpr
            (List.mem_append.mpr (Or.inr (List.mem_map_of_mem _ (List.mem_range.mpr hi))))
        have hlen : ((createProjectsN input n s0).projects.map (fun p => p.slug)).length
            = (s0.projects.map (fun p => p.slug)).length + n := by
          simp only [ihs, List.length_append, List.length_map, List.length_range]
        have hslug : generateUniqueSlug
            ((createProjectsN input n s0).projects.map (fun p => p.slug))
            (generateBaseSlug input.name)
            = some (slugCandidate (generateBaseSlug input.name) n) := by
          unfold generateUniqueSlug
          exact findFreeSlug_hits _ _ n _ 0 (Nat.zero_le n) (by omega) hnotmem htakenbelow
        constructor
        · show ((createProject input (createProjectsN input n s0)).2).users = s0.users
          unfold createProject
          rw [if_neg (by simp [hu2]), hslug]
          exact ihu
        · show ((createProject input (createProjectsN input n s0)).2).projects.map (fun p => p.slug) = _
          unfold createProject
          rw [if_neg (by simp [hu2]), hslug]
          dsimp only
          rw [List.map_append, ihs, List.range_succ, List.map_append, List.append_assoc]
          rfl
    intro n
    refine ⟨(main n).2, ?_⟩
    exact (List.nodup_range n).map (fun a b hab => slugCandidate_inj _ a b hab)

def c4Input : CreateProjectInput :=
  { user_id := 1, name := "x", description := none, ai_prompt := "p" }

def c4State : DBState :=
  { users := [demoUser], projects := [], files := [], chatMessages := [],
    deployments := [], nextProjectId := 1, nextFileId := 1 }

theorem c4_witness :
    (createProjectsN c4Input 2 c4State).projects.map (fun p => p.slug) = ["x", "x-1"] :=
  (((c4_first_free_slug_and_sequence c4Input c4State (by decide) (fun _ => rfl)).2 2).1).trans
    (by decide)
